import Mathlib

/-!
Verification of the SendBird pass-through API server: a shallow embedding of
`src/server.js` (route handlers, 404 fallback, error-handling middleware) and
`src/unnamed/part_000` (the `SendBirdClient` class), together with theorems
settling the specification claims about the request/response translation and
error-normalization contract.

JavaScript values are modelled by the inductive `JsVal`; JS truthiness, optional
chaining and property access are translated explicitly.  Each Express handler
becomes a pure function from its inputs (route parameter / parsed body, and the
outcome of the single outbound upstream call) to an HTTP response, recording the
outbound requests it issues so that call-count properties can be stated.
-/

/-- A JavaScript value as it appears in this program: `undefined`, `null`,
booleans, numbers (integral model — the program performs no arithmetic),
strings, arrays and plain objects (field lists). -/
inductive JsVal where
  | undefined : JsVal
  | null : JsVal
  | bool : Bool → JsVal
  | num : Int → JsVal
  | str : String → JsVal
  | arr : List JsVal → JsVal
  | obj : List (String × JsVal) → JsVal
deriving Repr

/-- JavaScript truthiness: `undefined`, `null`, `false`, `0` and `""` are falsy;
every object and array is truthy. -/
def truthy : JsVal → Bool
  | .undefined => false
  | .null => false
  | .bool b => b
  | .num n => n != 0
  | .str s => s != ""
  | .arr _ => true
  | .obj _ => true

/-- Whether a JavaScript value is exactly `undefined`. -/
def isUndefined : JsVal → Bool
  | .undefined => true
  | _ => false

/-- JavaScript property access `v[k]`: `none` models a thrown `TypeError`
(access on `null` or `undefined`); on an object it yields the field value or
`undefined`; on any other value it yields `undefined` (built-in properties are
irrelevant to the fields this program reads). -/
def getProp : JsVal → String → Option JsVal
  | .null, _ => none
  | .undefined, _ => none
  | .obj fs, k => some ((fs.lookup k).getD .undefined)
  | _, _ => some .undefined

/-- JavaScript optional-chaining access `v?.[k]`: yields `undefined` instead of
throwing when `v` is `null` or `undefined`. -/
def optChainProp (v : JsVal) (k : String) : JsVal :=
  match getProp v k with
  | none => .undefined
  | some w => w

/-- Whether an environment variable string is falsy in JS (`undefined` or `""`). -/
def jsFalsyStr : Option String → Bool
  | none => true
  | some s => s == ""

/-- Uppercase hexadecimal digit for `n < 16`. -/
def hexDigitChar (n : Nat) : Char :=
  if n < 10 then Char.ofNat (48 + n) else Char.ofNat (55 + n)

/-- The UTF-8 byte sequence of a Unicode code point. -/
def utf8Bytes (n : Nat) : List Nat :=
  if n < 0x80 then [n]
  else if n < 0x800 then [0xC0 + n / 0x40, 0x80 + n % 0x40]
  else if n < 0x10000 then [0xE0 + n / 0x1000, 0x80 + (n / 0x40) % 0x40, 0x80 + n % 0x40]
  else [0xF0 + n / 0x40000, 0x80 + (n / 0x1000) % 0x40, 0x80 + (n / 0x40) % 0x40, 0x80 + n % 0x40]

/-- The percent-encoding of a single byte, `%HH` with uppercase hex. -/
def pctByte (b : Nat) : String :=
  "%" ++ (hexDigitChar (b / 16)).toString ++ (hexDigitChar (b % 16)).toString

/-- Code points left unescaped by JavaScript `encodeURIComponent`:
`A-Z a-z 0-9 - _ . ! ~ * ' ( )`. -/
def isUnreservedCode (n : Nat) : Bool :=
  (65 ≤ n && n ≤ 90) || (97 ≤ n && n ≤ 122) || (48 ≤ n && n ≤ 57) ||
  n == 45 || n == 95 || n == 46 || n == 33 || n == 126 ||
  n == 42 || n == 39 || n == 40 || n == 41

/-- JavaScript `encodeURIComponent`: unreserved characters pass through, every
other character is UTF-8 percent-encoded. -/
def encodeURIComponent (s : String) : String :=
  String.join (s.toList.map fun c =>
    if isUnreservedCode c.toNat then c.toString
    else String.join ((utf8Bytes c.toNat).map pctByte))

/-- The `response` object attached by axios to an error that carries an
upstream HTTP reply: its status code and parsed body. -/
structure AxiosResponse where
  status : Nat
  data : JsVal
deriving Repr

/-- A JavaScript error as caught by the handlers: an optional axios `response`
(absent for transport failures and local errors) and the error `message`. -/
structure JsError where
  response : Option AxiosResponse
  message : String
deriving Repr

/-- An outbound HTTP request issued by the SendBird client: path relative to
the base URL, JSON body, and headers. -/
structure OutReq where
  path : String
  body : JsVal
  headers : List (String × String)
deriving Repr

/-- The state of a successfully constructed `SendBirdClient`
(src/unnamed/part_000, constructor): the two credentials and the derived base
URL. -/
structure SendBirdClient where
  applicationId : String
  apiToken : String
  baseURL : String
deriving Repr

/-- The `SendBirdClient` constructor: reads `SENDBIRD_APPLICATION_ID` and
`SENDBIRD_API_TOKEN` from the environment, derives
`https://api-${applicationId}.sendbird.com`, and throws when either variable is
falsy (absent or empty). -/
def mkSendBirdClient (appIdEnv apiTokenEnv : Option String) :
    Except String SendBirdClient :=
  if jsFalsyStr appIdEnv || jsFalsyStr apiTokenEnv then
    .error "SENDBIRD_APPLICATION_ID and SENDBIRD_API_TOKEN must be set in environment variables"
  else
    .ok { applicationId := appIdEnv.getD ""
          apiToken := apiTokenEnv.getD ""
          baseURL := "https://api-" ++ appIdEnv.getD "" ++ ".sendbird.com" }

/-- The default headers the axios instance attaches to every outbound call. -/
def SendBirdClient.defaultHeaders (c : SendBirdClient) : List (String × String) :=
  [("Api-Token", c.apiToken), ("Content-Type", "application/json")]

/-- The outbound request built by `getUserToken`:
`POST /v3/users/${encodeURIComponent(userId)}/token` with body `{}`. -/
def SendBirdClient.getUserTokenReq (c : SendBirdClient) (userId : String) : OutReq :=
  { path := "/v3/users/" ++ encodeURIComponent userId ++ "/token"
    body := .obj []
    headers := c.defaultHeaders }

/-- The outbound request built by `createUser`: `POST /v3/users` with the
`userData` object as body. -/
def SendBirdClient.createUserReq (c : SendBirdClient) (userData : JsVal) : OutReq :=
  { path := "/v3/users", body := userData, headers := c.defaultHeaders }

/-- Operation `SendBirdClient.getUserToken`: issues its single outbound
request, returns `response.data` on success, and rethrows the caught error
unchanged on failure.  The network is abstracted as a function from the
outbound request to an axios outcome. -/
def SendBirdClient.getUserToken (c : SendBirdClient) (userId : String)
    (net : OutReq → Except JsError JsVal) : Except JsError JsVal :=
  match net (c.getUserTokenReq userId) with
  | .ok d => .ok d
  | .error e => .error e

/-- Operation `SendBirdClient.createUser`: issues its single outbound request
with the `userData` payload, returns `response.data` on success, rethrows on
failure. -/
def SendBirdClient.createUser (c : SendBirdClient) (userData : JsVal)
    (net : OutReq → Except JsError JsVal) : Except JsError JsVal :=
  match net (c.createUserReq userData) with
  | .ok d => .ok d
  | .error e => .error e

/-- An HTTP response: status code and JSON body (`res.json` without an explicit
status sends 200). -/
structure Resp where
  status : Nat
  body : JsVal
deriving Repr

/-- The outcome of running a route handler: the response sent, plus the list of
outbound upstream requests that were issued while handling the request. -/
structure HandlerRun where
  resp : Resp
  calls : List OutReq
deriving Repr

/-- The status code computed in each catch block:
`error.response?.status || 500`. -/
def catchStatus (e : JsError) : Nat :=
  match e.response with
  | none => 500
  | some r => if r.status == 0 then 500 else r.status

/-- The error detail computed in each catch block:
`error.response?.data?.message || error.message`. -/
def catchErrorVal (e : JsError) : JsVal :=
  let m := match e.response with
    | none => JsVal.undefined
    | some r => optChainProp r.data "message"
  if truthy m then m else .str e.message

/-- The failure envelope sent by a catch block, parameterized by the fixed
path-specific `message` string. -/
def catchResp (e : JsError) (fixedMsg : String) : Resp :=
  { status := catchStatus e
    body := .obj [("success", .bool false), ("error", catchErrorVal e),
                  ("message", .str fixedMsg)] }

/-- The `GET /api/users/:userId/token` handler (src/server.js lines 203-236):
validates the route parameter by truthiness, calls
`sendbirdClient.getUserToken`, and wraps the outcome in the envelope. -/
def runGetToken (c : SendBirdClient) (userId : String)
    (net : OutReq → Except JsError JsVal) : HandlerRun :=
  if !truthy (.str userId) then
    { resp := { status := 400
                body := .obj [("success", .bool false),
                              ("error", .str "User ID is required"),
                              ("message", .str "Please provide a valid user ID")] }
      calls := [] }
  else
    match c.getUserToken userId net with
    | .ok tokenData =>
        { resp := { status := 200
                    body := .obj [("success", .bool true), ("data", tokenData),
                                  ("message", .str ("Token retrieved successfully for user: " ++ userId))] }
          calls := [c.getUserTokenReq userId] }
    | .error e =>
        { resp := catchResp e "Failed to get user token"
          calls := [c.getUserTokenReq userId] }

/-- The message of the `TypeError` thrown by `userData.user_id` when the parsed
body is `null` or `undefined` (V8 wording). -/
def typeErrorMsg : JsVal → String
  | .null => "Cannot read properties of null (reading \x27user_id\x27)"
  | _ => "Cannot read properties of undefined (reading \x27user_id\x27)"

/-- The `POST /api/users` handler (src/server.js lines 276-310): reads
`req.body.user_id` (a `TypeError` on a `null`/`undefined` body lands in the
same catch block as upstream failures), validates it by truthiness, calls
`sendbirdClient.createUser` with the body verbatim, and wraps the outcome. -/
def runCreateUser (c : SendBirdClient) (body : JsVal)
    (net : OutReq → Except JsError JsVal) : HandlerRun :=
  match getProp body "user_id" with
  | none =>
      { resp := catchResp { response := none, message := typeErrorMsg body }
                  "Failed to create user"
        calls := [] }
  | some uid =>
    if !truthy uid then
      { resp := { status := 400
                  body := .obj [("success", .bool false),
                                ("error", .str "user_id is required"),
                                ("message", .str "Please provide a user_id in the request body")] }
        calls := [] }
    else
      match c.createUser body net with
      | .ok newUser =>
          { resp := { status := 201
                      body := .obj [("success", .bool true), ("data", newUser),
                                    ("message", .str "User created successfully")] }
            calls := [c.createUserReq body] }
      | .error e =>
          { resp := catchResp e "Failed to create user"
            calls := [c.createUserReq body] }

/-- The 404 fallback handler (src/server.js lines 313-325). -/
def runNotFound (originalUrl : String) : Resp :=
  { status := 404
    body := .obj [("success", .bool false), ("error", .str "Endpoint not found"),
                  ("message", .str ("The requested endpoint " ++ originalUrl ++ " does not exist")),
                  ("availableEndpoints", .arr [.str "GET /health",
                    .str "GET /api/users/:userId/token", .str "POST /api/users",
                    .str "GET /api-docs"])] }

/-- The error-handling middleware (src/server.js lines 328-335): a fixed 500
envelope independent of the error. -/
def runErrorHandler (_e : JsError) : Resp :=
  { status := 500
    body := .obj [("success", .bool false), ("error", .str "Internal server error"),
                  ("message", .str "Something went wrong on the server")] }

/-- The `GET /health` handler (src/server.js lines 154-160), parameterized by
the current ISO timestamp. -/
def runHealth (now : String) : Resp :=
  { status := 200
    body := .obj [("status", .str "OK"), ("timestamp", .str now),
                  ("service", .str "SendBird API Server")] }

/-- A key is present on the wire when it maps to a non-`undefined` value
(`JSON.stringify`, hence `res.json`, drops `undefined`-valued fields). -/
def presentKey (fields : List (String × JsVal)) (k : String) : Bool :=
  match fields.lookup k with
  | some v => !isUndefined v
  | none => false

/-- Whether a response body is an Envelope in the sense of the specification:
an object with a boolean `success` field, where `success=true` comes with
`data` and `message` and no `error`, and `success=false` comes with `error`
and `message` and no `data`. -/
def isEnvelope (r : Resp) : Bool :=
  match r.body with
  | .obj fs =>
      match fs.lookup "success" with
      | some (.bool true) =>
          presentKey fs "data" && presentKey fs "message" && !presentKey fs "error"
      | some (.bool false) =>
          presentKey fs "error" && presentKey fs "message" && !presentKey fs "data"
      | _ => false
  | _ => false

/-- The failure response prescribed by the specification for an upstream
failure (amended to the code's truthiness tests): status from the upstream
error when present and nonzero, else 500; `error` from the upstream body's
`message` field when present and truthy, else the local error's message; the
fixed path-specific `message` string. -/
def specFailureResp (e : JsError) (fixedMsg : String) : Resp :=
  { status :=
      match e.response with
      | some ar => if ar.status = 0 then 500 else ar.status
      | none => 500
    body := .obj [("success", .bool false),
      ("error",
        match e.response with
        | some ar =>
            if truthy (optChainProp ar.data "message")
            then optChainProp ar.data "message" else .str e.message
        | none => .str e.message),
      ("message", .str fixedMsg)] }

/-- A concrete client state, equal to the result of constructing the client
with application id `app1` and API token `tok1`. -/
def sampleClient : SendBirdClient :=
  { applicationId := "app1", apiToken := "tok1"
    baseURL := "https://api-app1.sendbird.com" }

/-- A concrete upstream failure carrying an HTTP 404 reply whose body has an
empty-string `message` field. -/
def upErrEmptyMsg : JsError :=
  { response := some { status := 404, data := .obj [("message", .str "")] }
    message := "Request failed with status code 404" }

/-- A concrete upstream failure whose attached numeric status is `0`. -/
def upErrZeroStatus : JsError :=
  { response := some { status := 0, data := .null }
    message := "Network Error" }

/-- A concrete upstream failure carrying an HTTP 404 reply with a truthy
`message` field in its body. -/
def upErr404 : JsError :=
  { response := some { status := 404, data := .obj [("message", .str "SendBird not found")] }
    message := "Request failed with status code 404" }

/-- The token body of the specification's concrete scenario for the token
path. -/
def tok0 : JsVal :=
  .obj [("access_token", .str "tok123"), ("expires_at", .num 1700000000)]

@[simp] theorem isUndefined_str (s : String) : isUndefined (.str s) = false := rfl

theorem truthy_not_undefined {v : JsVal} (h : truthy v = true) : isUndefined v = false := by
  cases v <;> simp_all [truthy, isUndefined]

theorem catchErrorVal_not_undefined (e : JsError) : isUndefined (catchErrorVal e) = false := by
  unfold catchErrorVal
  cases he : e.response with
  | none => rfl
  | some r =>
    simp only [he]
    by_cases h : truthy (optChainProp r.data "message") = true
    · simp [h, truthy_not_undefined h]
    · simp [h, isUndefined]

theorem catchResp_isEnvelope (e : JsError) (fixedMsg : String) :
    isEnvelope (catchResp e fixedMsg) = true := by
  have h := catchErrorVal_not_undefined e
  simp [catchResp, isEnvelope, presentKey, List.lookup, h]

/-- Every response of the token-fetch handler is an envelope, provided the
upstream success payloads are JSON values (never `undefined`). -/
theorem getToken_isEnvelope (c : SendBirdClient) (userId : String)
    (net : OutReq → Except JsError JsVal)
    (h : ∀ r d, net r = .ok d → isUndefined d = false) :
    isEnvelope (runGetToken c userId net).resp = true := by
  rcases hE : net (c.getUserTokenReq userId) with e | d
  · unfold runGetToken SendBirdClient.getUserToken
    rw [hE]
    split
    · rfl
    · exact catchResp_isEnvelope e "Failed to get user token"
  · have hd := h _ _ hE
    unfold runGetToken SendBirdClient.getUserToken
    rw [hE]
    split
    · rfl
    · simp [isEnvelope, presentKey, List.lookup, hd]

/-- Every response of the user-creation handler is an envelope, provided the
upstream success payloads are JSON values (never `undefined`). -/
theorem createUser_isEnvelope (c : SendBirdClient) (body : JsVal)
    (net : OutReq → Except JsError JsVal)
    (h : ∀ r d, net r = .ok d → isUndefined d = false) :
    isEnvelope (runCreateUser c body net).resp = true := by
  unfold runCreateUser
  split
  · exact catchResp_isEnvelope _ "Failed to create user"
  · split
    · rfl
    · unfold SendBirdClient.createUser
      rcases hE : net (c.createUserReq body) with e | d
      · simpa using catchResp_isEnvelope e "Failed to create user"
      · have hd := h _ _ hE
        simp [isEnvelope, presentKey, List.lookup, hd]

theorem notFound_isEnvelope (url : String) :
    isEnvelope (runNotFound url) = true := rfl

/-- C1: for every response produced by the token-fetch handler, the
user-creation handler and the 404 fallback (over all inputs, with upstream
success payloads being JSON values), the Envelope's success flag and the
presence of `data` vs `error` are mutually exclusive and exhaustive: a
`success=true` response contains `data` and `message` and no `error` field,
and a `success=false` response contains `error` and `message` and no `data`
field. -/
theorem C1_envelope_exclusive (c : SendBirdClient) (userId : String)
    (body : JsVal) (url : String) (net : OutReq → Except JsError JsVal)
    (h : ∀ r d, net r = .ok d → isUndefined d = false) :
    isEnvelope (runGetToken c userId net).resp = true ∧
    isEnvelope (runCreateUser c body net).resp = true ∧
    isEnvelope (runNotFound url) = true :=
  ⟨getToken_isEnvelope c userId net h, createUser_isEnvelope c body net h,
    notFound_isEnvelope url⟩

/-- C1 witness: the envelope invariant evaluated at concrete inputs. -/
theorem C1_envelope_exclusive_witness :
    isEnvelope (runGetToken sampleClient "alice" (fun _ => .ok tok0)).resp = true ∧
    isEnvelope (runCreateUser sampleClient (.obj [("user_id", .str "alice")])
      (fun _ => .ok tok0)).resp = true ∧
    isEnvelope (runNotFound "/nonexistent") = true :=
  C1_envelope_exclusive sampleClient "alice" (.obj [("user_id", .str "alice")])
    "/nonexistent" (fun _ => .ok tok0)
    (fun r d hd => by simp at hd; subst hd; rfl)

/-- C3: a request with an empty `userId` route parameter, or a body whose
`user_id` is missing or falsy, is answered 400 with `success=false` and the
path-specific error string, and the upstream client is not invoked (the list
of outbound calls is empty), whatever the upstream would have answered. -/
theorem C3_validation_short_circuit (c : SendBirdClient) (body uid : JsVal)
    (net : OutReq → Except JsError JsVal)
    (hb : getProp body "user_id" = some uid) (huid : truthy uid = false) :
    runGetToken c "" net =
      { resp := { status := 400
                  body := .obj [("success", .bool false),
                    ("error", .str "User ID is required"),
                    ("message", .str "Please provide a valid user ID")] }
        calls := [] } ∧
    runCreateUser c body net =
      { resp := { status := 400
                  body := .obj [("success", .bool false),
                    ("error", .str "user_id is required"),
                    ("message", .str "Please provide a user_id in the request body")] }
        calls := [] } := by
  refine ⟨rfl, ?_⟩
  simp [runCreateUser, hb, huid]

/-- C3 witness: the validation short-circuit at concrete inputs (empty route
parameter; body `{}` with no `user_id`). -/
theorem C3_validation_short_circuit_witness :
    (runGetToken sampleClient "" (fun _ => .ok tok0)).resp.status = 400 ∧
    (runGetToken sampleClient "" (fun _ => .ok tok0)).calls = [] ∧
    (runCreateUser sampleClient (.obj []) (fun _ => .ok tok0)).resp.status = 400 ∧
    (runCreateUser sampleClient (.obj []) (fun _ => .ok tok0)).calls = [] := by
  have h := C3_validation_short_circuit sampleClient (.obj []) .undefined
    (fun _ => .ok tok0) rfl rfl
  exact ⟨by rw [h.1], by rw [h.1], by rw [h.2], by rw [h.2]⟩

/-- C4: on upstream success the token handler answers 200 with `data` equal to
the upstream response body unmodified and a message interpolating the decoded
user id; in particular `GET /api/users/User%202/token` with the mocked
upstream body `{"access_token":"tok123","expires_at":1700000000}` yields
exactly the specified envelope, the outbound call going to
`/v3/users/User%202/token`. -/
theorem C4_token_success (c : SendBirdClient) (userId : String) (d : JsVal)
    (hu : userId ≠ "") :
    (runGetToken c userId (fun _ => .ok d)).resp =
      { status := 200
        body := .obj [("success", .bool true), ("data", d),
          ("message", .str ("Token retrieved successfully for user: " ++ userId))] } ∧
    runGetToken sampleClient "User 2" (fun _ => .ok tok0) =
      { resp := { status := 200
                  body := .obj [("success", .bool true), ("data", tok0),
                    ("message", .str "Token retrieved successfully for user: User 2")] }
        calls := [{ path := "/v3/users/User%202/token", body := .obj []
                    headers := [("Api-Token", "tok1"), ("Content-Type", "application/json")] }] } := by
  constructor
  · have ht : truthy (.str userId) = true := by simp [truthy, hu]
    simp [runGetToken, ht, SendBirdClient.getUserToken]
  · rfl

/-- C4 witness: the general success mapping applied at a concrete user id and
upstream body. -/
theorem C4_token_success_witness :
    (runGetToken sampleClient "alice" (fun _ => .ok .null)).resp =
      { status := 200
        body := .obj [("success", .bool true), ("data", .null),
          ("message", .str "Token retrieved successfully for user: alice")] } :=
  (C4_token_success sampleClient "alice" .null (by decide)).1

/-- C5: with a truthy `user_id` in the body, the creation handler issues
exactly one outbound call whose payload is the inbound body verbatim (no field
added, removed or defaulted), and on upstream success answers 201 with
`success=true`, `data` equal to the upstream response body unmodified and the
message `User created successfully`. -/
theorem C5_create_forwards_verbatim (c : SendBirdClient) (body uid d : JsVal)
    (net : OutReq → Except JsError JsVal)
    (hb : getProp body "user_id" = some uid) (huid : truthy uid = true)
    (hnet : net (c.createUserReq body) = .ok d) :
    runCreateUser c body net =
      { resp := { status := 201
                  body := .obj [("success", .bool true), ("data", d),
                    ("message", .str "User created successfully")] }
        calls := [{ path := "/v3/users", body := body, headers := c.defaultHeaders }] } := by
  have hnet2 : net { path := "/v3/users", body := body, headers := c.defaultHeaders } = .ok d := by
    simpa [SendBirdClient.createUserReq] using hnet
  simp [runCreateUser, hb, huid, SendBirdClient.createUser,
    SendBirdClient.createUserReq, hnet2]

/-- C5 witness: a concrete body with `issue_access_token` present is forwarded
untouched as the single outbound payload. -/
theorem C5_create_forwards_verbatim_witness :
    runCreateUser sampleClient
      (.obj [("user_id", .str "john_doe"), ("nickname", .str "John Doe"),
             ("issue_access_token", .bool true)])
      (fun _ => .ok (.obj [("user_id", .str "john_doe"), ("access_token", .str "at1")])) =
      { resp := { status := 201
                  body := .obj [("success", .bool true),
                    ("data", .obj [("user_id", .str "john_doe"), ("access_token", .str "at1")]),
                    ("message", .str "User created successfully")] }
        calls := [{ path := "/v3/users"
                    body := .obj [("user_id", .str "john_doe"), ("nickname", .str "John Doe"),
                      ("issue_access_token", .bool true)]
                    headers := [("Api-Token", "tok1"), ("Content-Type", "application/json")] }] } :=
  C5_create_forwards_verbatim sampleClient
    (.obj [("user_id", .str "john_doe"), ("nickname", .str "John Doe"),
           ("issue_access_token", .bool true)])
    (.str "john_doe")
    (.obj [("user_id", .str "john_doe"), ("access_token", .str "at1")])
    (fun _ => .ok (.obj [("user_id", .str "john_doe"), ("access_token", .str "at1")]))
    rfl rfl rfl

theorem catchResp_eq_spec (e : JsError) (fixedMsg : String) :
    catchResp e fixedMsg = specFailureResp e fixedMsg := by
  unfold catchResp specFailureResp catchStatus catchErrorVal
  cases he : e.response with
  | none => simp only [he]; rfl
  | some r =>
    simp only [he]
    by_cases h0 : r.status = 0 <;>
      by_cases hm : truthy (optChainProp r.data "message") = true <;>
        simp [h0, hm]

/-- C2 counterexample: the catch block maps upstream failures by JS
truthiness, not by presence.  An upstream 404 whose body carries the present
but empty `message` field gets the local axios message in `error` (the claim
prescribes the upstream-provided `""`), and an error whose attached numeric
status is `0` is answered 500 (the claim prescribes `0`). -/
theorem C2_counterexample :
    upErrEmptyMsg.response = some { status := 404, data := .obj [("message", .str "")] } ∧
    getProp (JsVal.obj [("message", .str "")]) "message" = some (.str "") ∧
    (runGetToken sampleClient "u1" (fun _ => .error upErrEmptyMsg)).resp.body =
      .obj [("success", .bool false),
            ("error", .str "Request failed with status code 404"),
            ("message", .str "Failed to get user token")] ∧
    JsVal.str "Request failed with status code 404" ≠ JsVal.str "" ∧
    upErrZeroStatus.response = some { status := 0, data := .null } ∧
    (runGetToken sampleClient "u1" (fun _ => .error upErrZeroStatus)).resp.status = 500 ∧
    (500 : Nat) ≠ 0 :=
  ⟨rfl, rfl, rfl, by simp, rfl, rfl, by decide⟩

/-- C2 amended: for every failure delivered by the upstream, both handlers
answer with the response prescribed by `specFailureResp`: status equal to the
status attached to the upstream error when present and nonzero, else 500;
`error` equal to the upstream body's `message` field when present and truthy,
else the local error's message; and the fixed path-specific `message` string
(`Failed to get user token` / `Failed to create user`). -/
theorem C2_upstream_failure_mapping (c : SendBirdClient) (userId : String)
    (body uid : JsVal) (e : JsError) (net : OutReq → Except JsError JsVal)
    (hu : userId ≠ "") (hb : getProp body "user_id" = some uid)
    (huid : truthy uid = true) (hnet : ∀ r, net r = .error e) :
    (runGetToken c userId net).resp = specFailureResp e "Failed to get user token" ∧
    (runCreateUser c body net).resp = specFailureResp e "Failed to create user" := by
  constructor
  · have ht : truthy (.str userId) = true := by simp [truthy, hu]
    have hn := hnet (c.getUserTokenReq userId)
    simp [runGetToken, ht, SendBirdClient.getUserToken, hn, catchResp_eq_spec]
  · have hn := hnet (c.createUserReq body)
    simp [runCreateUser, hb, huid, SendBirdClient.createUser, hn, catchResp_eq_spec]

/-- C2 witness: the amended mapping evaluated on a concrete upstream 404 with
a truthy upstream message. -/
theorem C2_upstream_failure_mapping_witness :
    (runGetToken sampleClient "u1" (fun _ => .error upErr404)).resp =
      { status := 404
        body := .obj [("success", .bool false),
          ("error", .str "SendBird not found"),
          ("message", .str "Failed to get user token")] } := by
  have h := (C2_upstream_failure_mapping sampleClient "u1"
    (.obj [("user_id", .str "u1")]) (.str "u1") upErr404
    (fun _ => .error upErr404) (by decide) rfl rfl (fun _ => rfl)).1
  rw [h]
  rfl

/-- C6: every failure that is not raised by the two upstream operations is
handled by the error-handling middleware (a malformed JSON body is rejected by
the body parser before the route handlers run, and the parser otherwise always
leaves an object in `req.body`, so no such failure arises inside a handler's
try block); the middleware answers status 500 with error
`Internal server error` and the fixed message
`Something went wrong on the server`, a well-formed failure Envelope, and its
response is literally the same for every failure, so no raw internal failure
text leaks beyond the fixed message. -/
theorem C6_unhandled_error_envelope (e : JsError) :
    runErrorHandler e =
      { status := 500
        body := .obj [("success", .bool false),
          ("error", .str "Internal server error"),
          ("message", .str "Something went wrong on the server")] } ∧
    (∀ e2, runErrorHandler e = runErrorHandler e2) ∧
    isEnvelope (runErrorHandler e) = true :=
  ⟨rfl, fun _ => rfl, rfl⟩

/-- C7 counterexample: the `GET /health` response is not an Envelope in the
sense of section 3 — it is a plain status object with no `success`, `data` or
`error` field. -/
theorem C7_counterexample :
    isEnvelope (runHealth "2026-10-11T00:00:00.000Z") = false ∧
    (runHealth "2026-10-11T00:00:00.000Z").body =
      .obj [("status", .str "OK"), ("timestamp", .str "2026-10-11T00:00:00.000Z"),
            ("service", .str "SendBird API Server")] :=
  ⟨rfl, rfl⟩

/-- C7 amended: every response of the token-fetch, user-creation and 404
handlers is an Envelope (boolean `success`, with `data`/`message` on success
and `error`/`message` on failure); `GET /health` is the exception: it answers
200 with a plain `{status, timestamp, service}` object that is not an
Envelope. -/
theorem C7_envelope_surface (c : SendBirdClient) (userId : String)
    (body : JsVal) (url tnow : String) (net : OutReq → Except JsError JsVal)
    (h : ∀ r d, net r = .ok d → isUndefined d = false) :
    isEnvelope (runGetToken c userId net).resp = true ∧
    isEnvelope (runCreateUser c body net).resp = true ∧
    isEnvelope (runNotFound url) = true ∧
    (runHealth tnow).status = 200 ∧
    (runHealth tnow).body = .obj [("status", .str "OK"), ("timestamp", .str tnow),
      ("service", .str "SendBird API Server")] ∧
    isEnvelope (runHealth tnow) = false :=
  ⟨getToken_isEnvelope c userId net h, createUser_isEnvelope c body net h,
   notFound_isEnvelope url, rfl, rfl, rfl⟩

/-- C7 witness: the amended surface description at concrete inputs. -/
theorem C7_envelope_surface_witness :
    isEnvelope (runGetToken sampleClient "bob" (fun _ => .ok tok0)).resp = true ∧
    isEnvelope (runCreateUser sampleClient (.obj [("user_id", .str "bob")])
      (fun _ => .ok tok0)).resp = true ∧
    isEnvelope (runNotFound "/missing") = true ∧
    (runHealth "2026-01-01T00:00:00.000Z").status = 200 ∧
    (runHealth "2026-01-01T00:00:00.000Z").body =
      .obj [("status", .str "OK"), ("timestamp", .str "2026-01-01T00:00:00.000Z"),
        ("service", .str "SendBird API Server")] ∧
    isEnvelope (runHealth "2026-01-01T00:00:00.000Z") = false :=
  C7_envelope_surface sampleClient "bob" (.obj [("user_id", .str "bob")])
    "/missing" "2026-01-01T00:00:00.000Z" (fun _ => .ok tok0)
    (fun r d hd => by simp at hd; subst hd; rfl)

/-- C8: constructing the upstream client fails exactly when the application
identifier or the API credential is absent or the empty string; when
construction succeeds, the stored credentials are the two given values, the
base address is `https://api-{applicationId}.sendbird.com`, and both outbound
request builders attach the credential in the `Api-Token` header together
with the JSON content type. -/
theorem C8_constructor_contract (a b : Option String) :
    ((∃ msg, mkSendBirdClient a b = .error msg) ↔
      (a = none ∨ a = some "" ∨ b = none ∨ b = some "")) ∧
    (∀ s, mkSendBirdClient a b = .ok s →
      a = some s.applicationId ∧ b = some s.apiToken ∧
      s.baseURL = "https://api-" ++ s.applicationId ++ ".sendbird.com" ∧
      (∀ u, (s.getUserTokenReq u).headers =
        [("Api-Token", s.apiToken), ("Content-Type", "application/json")]) ∧
      (∀ d, (s.createUserReq d).headers =
        [("Api-Token", s.apiToken), ("Content-Type", "application/json")])) := by
  constructor
  · constructor
    · rintro ⟨msg, hmsg⟩
      rcases a with _ | sa
      · exact .inl rfl
      · rcases b with _ | sb
        · exact .inr (.inr (.inl rfl))
        · by_cases ha : sa = ""
          · exact .inr (.inl (by rw [ha]))
          · by_cases hb2 : sb = ""
            · exact .inr (.inr (.inr (by rw [hb2])))
            · simp [mkSendBirdClient, jsFalsyStr, ha, hb2] at hmsg
    · intro hdisj
      have hf : (jsFalsyStr a || jsFalsyStr b) = true := by
        rcases hdisj with h | h | h | h <;> subst h <;> simp [jsFalsyStr]
      exact ⟨"SENDBIRD_APPLICATION_ID and SENDBIRD_API_TOKEN must be set in environment variables",
        by simp [mkSendBirdClient, hf]⟩
  · intro s hs
    rcases a with _ | sa
    · simp [mkSendBirdClient, jsFalsyStr] at hs
    · rcases b with _ | sb
      · simp [mkSendBirdClient, jsFalsyStr] at hs
      · by_cases ha : sa = ""
        · simp [mkSendBirdClient, jsFalsyStr, ha] at hs
        · by_cases hb2 : sb = ""
          · simp [mkSendBirdClient, jsFalsyStr, ha, hb2] at hs
          · have hs2 : ({ applicationId := sa, apiToken := sb
                          baseURL := "https://api-" ++ sa ++ ".sendbird.com" } : SendBirdClient) = s := by
              have := hs
              simp [mkSendBirdClient, jsFalsyStr, ha, hb2] at this
              exact this
            subst hs2
            exact ⟨rfl, rfl, rfl, fun _ => rfl, fun _ => rfl⟩

/-- C8 witness: the construction contract evaluated at concrete environments
(both credentials present; application id absent). -/
theorem C8_constructor_contract_witness :
    mkSendBirdClient (some "app1") (some "tok1") = .ok sampleClient ∧
    (∃ msg, mkSendBirdClient none (some "tok1") = .error msg) ∧
    sampleClient.baseURL = "https://api-" ++ sampleClient.applicationId ++ ".sendbird.com" ∧
    (sampleClient.getUserTokenReq "u").headers =
      [("Api-Token", sampleClient.apiToken), ("Content-Type", "application/json")] := by
  have h2 := (C8_constructor_contract (some "app1") (some "tok1")).2 sampleClient rfl
  have h1 := (C8_constructor_contract none (some "tok1")).1.2 (.inl rfl)
  exact ⟨rfl, h1, h2.2.2.1, h2.2.2.2.1 "u"⟩

/-- C9: the user-creation validation rejects by JS truthiness, not by the
non-empty-string rule: every falsy `user_id` present in the body (empty
string, 0, false, null — and likewise an absent one, which reads as
`undefined`) yields the same 400 response with error `user_id is required`
and no outbound call, while every truthy value — a non-string number
included — passes validation and the body is forwarded as the single
outbound call. -/
theorem C9_truthiness_validation (c : SendBirdClient) (body uid : JsVal)
    (net : OutReq → Except JsError JsVal)
    (hb : getProp body "user_id" = some uid) :
    (truthy uid = false →
      runCreateUser c body net =
        { resp := { status := 400
                    body := .obj [("success", .bool false),
                      ("error", .str "user_id is required"),
                      ("message", .str "Please provide a user_id in the request body")] }
          calls := [] }) ∧
    (truthy uid = true →
      (runCreateUser c body net).calls = [c.createUserReq body]) := by
  constructor
  · intro huid
    simp [runCreateUser, hb, huid]
  · intro huid
    rcases hE : net (c.createUserReq body) with e | d <;>
      simp [runCreateUser, hb, huid, SendBirdClient.createUser, hE]

/-- C9 witness: the four falsy `user_id` values are all answered 400 with no
outbound call, and a truthy non-string number is forwarded upstream. -/
theorem C9_truthiness_validation_witness :
    (runCreateUser sampleClient (.obj [("user_id", .str "")]) (fun _ => .ok .null)).resp.status = 400 ∧
    (runCreateUser sampleClient (.obj [("user_id", .num 0)]) (fun _ => .ok .null)).resp.status = 400 ∧
    (runCreateUser sampleClient (.obj [("user_id", .bool false)]) (fun _ => .ok .null)).resp.status = 400 ∧
    (runCreateUser sampleClient (.obj [("user_id", .null)]) (fun _ => .ok .null)).resp.status = 400 ∧
    (runCreateUser sampleClient (.obj [("user_id", .num 0)]) (fun _ => .ok .null)).calls = [] ∧
    (runCreateUser sampleClient (.obj [("user_id", .num 42)]) (fun _ => .ok .null)).calls =
      [sampleClient.createUserReq (.obj [("user_id", .num 42)])] := by
  refine ⟨?_, ?_, ?_, ?_, ?_, ?_⟩
  · rw [(C9_truthiness_validation sampleClient (.obj [("user_id", .str "")])
      (.str "") (fun _ => .ok .null) rfl).1 rfl]
  · rw [(C9_truthiness_validation sampleClient (.obj [("user_id", .num 0)])
      (.num 0) (fun _ => .ok .null) rfl).1 rfl]
  · rw [(C9_truthiness_validation sampleClient (.obj [("user_id", .bool false)])
      (.bool false) (fun _ => .ok .null) rfl).1 rfl]
  · rw [(C9_truthiness_validation sampleClient (.obj [("user_id", .null)])
      (.null) (fun _ => .ok .null) rfl).1 rfl]
  · rw [(C9_truthiness_validation sampleClient (.obj [("user_id", .num 0)])
      (.num 0) (fun _ => .ok .null) rfl).1 rfl]
  · exact (C9_truthiness_validation sampleClient (.obj [("user_id", .num 42)])
      (.num 42) (fun _ => .ok .null) rfl).2 rfl

theorem exceptIdMatch (x : Except JsError JsVal) :
    (match x with | .ok d => Except.ok d | .error e => Except.error e) = x := by
  cases x <;> rfl

/-- C10: `getUserToken` always issues exactly one outbound request, to
`/v3/users/{percent-encoded userId}/token` with the fixed empty JSON object
`{}` as body and the client's credential headers, regardless of the inbound
request; its outcome is the upstream outcome unchanged, so a caught upstream
error is rethrown as-is, with no wrapping or substitution. -/
theorem C10_token_request_shape (c : SendBirdClient) (userId : String)
    (net : OutReq → Except JsError JsVal) :
    SendBirdClient.getUserToken c userId net =
      net { path := "/v3/users/" ++ encodeURIComponent userId ++ "/token"
            body := .obj []
            headers := [("Api-Token", c.apiToken), ("Content-Type", "application/json")] } ∧
    (∀ e, net (c.getUserTokenReq userId) = .error e →
      SendBirdClient.getUserToken c userId net = .error e) := by
  constructor
  · exact exceptIdMatch (net (c.getUserTokenReq userId))
  · intro e he
    simp only [SendBirdClient.getUserToken, he]

/-- C10 witness: the request shape and the unchanged rethrow evaluated at a
concrete user id, network and upstream error. -/
theorem C10_token_request_shape_witness :
    SendBirdClient.getUserToken sampleClient "User 2" (fun _ => .error upErr404) =
      .error upErr404 ∧
    SendBirdClient.getUserToken sampleClient "User 2" (fun _ => .ok tok0) = .ok tok0 := by
  constructor
  · exact (C10_token_request_shape sampleClient "User 2"
      (fun _ => .error upErr404)).2 upErr404 rfl
  · exact (C10_token_request_shape sampleClient "User 2" (fun _ => .ok tok0)).1
